import Mathlib

/-!
Shallow embedding of the ResearchRover client-side orchestration layer:
the Source Selection and Embedding Orchestrator (DocumentPickerModal) and
the Conversation Controller (ChatPage).  Pure functions mirror the handlers
of the source; asynchronous network calls are modelled by explicit outcome
parameters (oracles) and by a list of issued API calls returned alongside
the new state.
-/

namespace ResearchRover

/-! Data model, mirroring the TypeScript interfaces of DocumentPickerModal. -/

/-- Mirrors interface LibraryDocument of the picker. -/
structure LibraryDocument where
  id : String
  filename : String
  original_filename : String
  content_type : String
  file_size : Nat
  created_at : String
deriving DecidableEq, Repr

/-- Mirrors interface LibraryPaper of the picker. -/
structure LibraryPaper where
  paper_id : String
  title : String
  pdf_url : Option String
  arxiv_id : Option String
  source : Option String
  has_local_pdf : Bool
  document_id : Option String
  folder_id : String
deriving DecidableEq, Repr

/-- Mirrors interface LibraryRepo of the picker. -/
structure LibraryRepo where
  repo_id : String
  full_name : String
  description : Option String
  html_url : String
  stars_count : Nat
  primary_language : Option String
  has_local_doc : Bool
  document_id : Option String
  folder_id : String
deriving DecidableEq, Repr

/-- Mirrors interface LibraryFolder: a folder with leaf items and child folders. -/
inductive LibraryFolder : Type where
  | mk (id : String) (name : String) (parent_id : Option String)
       (documents : List LibraryDocument) (papers : List LibraryPaper)
       (repos : List LibraryRepo) (children : List LibraryFolder)

/-- Mirrors interface LibraryResponse. -/
structure LibraryResponse where
  folders : List LibraryFolder
  root_documents : List LibraryDocument

/-- Mirrors interface EmbedStatusItem. -/
structure EmbedStatusItem where
  document_id : String
  status : String
  chunk_count : Nat
  error_message : Option String
deriving DecidableEq, Repr

/-- The three selectable item kinds of interface SelectedItem. -/
inductive ItemType : Type where
  | document | paper | repo
deriving DecidableEq, Repr

/-- Mirrors interface SelectedItem (the value stored in the selection map). -/
structure SelectedItem where
  type : ItemType
  id : String
  label : String
  contentType : Option String := none
  paper : Option LibraryPaper := none
  repo : Option LibraryRepo := none
deriving DecidableEq, Repr

/-- The selection state is a JavaScript Map from keys such as "doc:id",
"paper:id", "repo:id" to SelectedItem, modelled as an insertion-ordered
association list. -/
abbrev SelMap := List (String × SelectedItem)

/-- JavaScript truthiness of a nullable string: null and the empty string
are falsy. -/
def optStrFalsy : Option String → Bool
  | none => true
  | some s => s == ""

/-- JavaScript `x || y` where x is a nullable/optional string: returns y
when x is undefined or empty. -/
def jsOr : Option String → String → String
  | none, y => y
  | some s, y => if s == "" then y else s

/-- JavaScript Map.has. -/
def mapHas (m : SelMap) (k : String) : Bool :=
  m.any (fun e => e.1 == k)

/-- JavaScript Map.delete (removing every binding of the key). -/
def mapDelete (m : SelMap) (k : String) : SelMap :=
  m.filter (fun e => e.1 != k)

/-- JavaScript Map.get. -/
def mapGet? (m : SelMap) (k : String) : Option SelectedItem :=
  (m.find? (fun e => e.1 == k)).map (fun e => e.2)

/-- JavaScript Map.set: overwrite in place when the key is present,
append at the end otherwise. -/
def mapSet (m : SelMap) (k : String) (v : SelectedItem) : SelMap :=
  if mapHas m k then m.map (fun e => if e.1 == k then (k, v) else e)
  else m ++ [(k, v)]

mutual

/-- One step of the recursive library lookup inside toggleDoc: scan this
folder's documents, then recurse into its children. -/
def findDocInFolder (id : String) : LibraryFolder → Option LibraryDocument
  | LibraryFolder.mk _ _ _ docs _ _ children =>
    match docs.find? (fun d => d.id == id) with
    | some d => some d
    | none => findDoc id children

/-- The recursive library lookup inside toggleDoc (const findDoc):
scan each folder's documents, then recurse into its children, then move
to the next folder. -/
def findDoc (id : String) : List LibraryFolder → Option LibraryDocument
  | [] => none
  | f :: fs =>
    match findDocInFolder id f with
    | some d => some d
    | none => findDoc id fs

end

/-- The SelectedItem built by toggleDoc when inserting a document:
label falls back to the raw id when the library lookup fails or the
filename is empty (JavaScript `doc?.original_filename || id`). -/
def docItem (library : Option LibraryResponse) (id : String) : SelectedItem :=
  let doc := match library with
    | some lib => findDoc id lib.folders
    | none => none
  { type := ItemType.document, id := id,
    label := jsOr (doc.map (fun d => d.original_filename)) id,
    contentType := doc.map (fun d => d.content_type) }

/-- The common toggle shape shared by toggleDoc, togglePaper and toggleRepo:
delete the key when present, otherwise insert the freshly built item. -/
def togglePair (prev : SelMap) (key : String) (item : SelectedItem) : SelMap :=
  if mapHas prev key then mapDelete prev key else mapSet prev key item

/-- Mirrors toggleDoc of DocumentPickerModal. -/
def toggleDoc (library : Option LibraryResponse) (id : String) (prev : SelMap) : SelMap :=
  togglePair prev ("doc:" ++ id) (docItem library id)

/-- Mirrors togglePaper of DocumentPickerModal.  Note: it performs no check
of pdf_url or has_local_pdf. -/
def togglePaper (paper : LibraryPaper) (prev : SelMap) : SelMap :=
  togglePair prev ("paper:" ++ paper.paper_id)
    { type := ItemType.paper, id := paper.paper_id, label := paper.title,
      contentType := some "application/pdf", paper := some paper }

/-- Mirrors toggleRepo of DocumentPickerModal. -/
def toggleRepo (repo : LibraryRepo) (prev : SelMap) : SelMap :=
  togglePair prev ("repo:" ++ repo.repo_id)
    { type := ItemType.repo, id := repo.repo_id, label := repo.full_name,
      contentType := some "text/x-github-repo", repo := some repo }

/-- Mirrors removeItem of DocumentPickerModal. -/
def removeItem (key : String) (prev : SelMap) : SelMap :=
  mapDelete prev key

/-- Mirrors the initial-selection restore effect of DocumentPickerModal
(for each id of initialDocumentIds, set doc:id to a bare entry whose label
is the raw id). -/
def initialSelection (initialDocumentIds : List String) : SelMap :=
  initialDocumentIds.foldl
    (fun m id => mapSet m ("doc:" ++ id)
      { type := ItemType.document, id := id, label := id })
    []

/-- The disabled attribute of the paper checkbox in FolderNode:
`!paper.pdf_url && !paper.has_local_pdf`. -/
def paperCheckboxDisabled (p : LibraryPaper) : Bool :=
  optStrFalsy p.pdf_url && !p.has_local_pdf

/-! Embedding orchestrator: the reconciliation tail of handleConfirm. -/

/-- The observable outcome of handleConfirm: the error banner, the
embedding (in-progress) flag after the handler returns, and the list of
ids handed to onConfirm (none when onConfirm is not invoked). -/
structure ConfirmOutcome where
  error : Option String
  embedding : Bool
  confirmedIds : Option (List String)
deriving DecidableEq, Repr

/-- Mirrors the merge step of handleConfirm: the per-request result lists
of the concurrently issued embed calls are concatenated in order. -/
def mergeResults (resultLists : List (List EmbedStatusItem)) : List EmbedStatusItem :=
  resultLists.flatten

/-- Mirrors the reconciliation tail of handleConfirm of DocumentPickerModal,
given the merged per-item outcomes allResults: when every outcome failed
(and there is at least one), set the aggregate error, clear the embedding
flag and return without invoking onConfirm; otherwise invoke onConfirm with
exactly the ids whose status is completed (the finally clause clears the
embedding flag). -/
def handleConfirm (allResults : List EmbedStatusItem) : ConfirmOutcome :=
  let failures := allResults.filter (fun r => r.status == "failed")
  if 0 < failures.length ∧ failures.length = allResults.length then
    { error := some "All items failed to embed", embedding := false,
      confirmedIds := none }
  else
    { error := none, embedding := false,
      confirmedIds := some ((allResults.filter
        (fun r => r.status == "completed")).map (fun r => r.document_id)) }

/-! Conversation Controller: the ChatPage state machine. -/

/-- The two chat modes. -/
inductive Mode : Type where
  | global | documents
deriving DecidableEq, Repr

/-- The two context strategies. -/
inductive ContextMode : Type where
  | rag | full_context
deriving DecidableEq, Repr

/-- Message roles. -/
inductive Role : Type where
  | user | assistant
deriving DecidableEq, Repr

/-- Mirrors interface Citation of ChatPage.  The relevance score, a
JavaScript number, is modelled as a rational. -/
structure Citation where
  title : Option String := none
  source : Option String := none
  url : Option String := none
  type : Option String := none
  relevance_score : Option Rat := none
deriving DecidableEq, Repr

/-- Mirrors interface Message of ChatPage (id is absent on optimistic
local entries; confidence, a JavaScript number, is modelled as a rational). -/
structure Message where
  id : Option String := none
  role : Role
  content : String
  citations : List Citation := []
  confidence : Option Rat := none
deriving DecidableEq, Repr

/-- Mirrors interface ConversationItem (the summary rows of the sidebar). -/
structure ConversationItem where
  id : String
  title : Option String
  mode : String
  context_mode : String
  created_at : String
  updated_at : String
  last_message_preview : Option String
deriving DecidableEq, Repr

/-- The React state of ChatPage that the handlers read and write. -/
structure ChatState where
  conversations : List ConversationItem
  activeConversationId : Option String
  activeMode : Mode
  contextMode : ContextMode
  activeDocumentIds : List String
  messages : List Message
  input : String
  loading : Bool
  pickerOpen : Bool
deriving DecidableEq, Repr

/-- The network requests a handler can issue, in issue order. -/
inductive ApiCall : Type where
  | createConversation (title : Option String) (mode : Mode) (contextMode : ContextMode)
  | fetchConversations
  | setConversationDocuments (conversationId : String) (documentIds : List String)
  | updateContextMode (conversationId : String) (mode : ContextMode)
  | sendConversationMessage (conversationId : String) (question : String)
deriving DecidableEq, Repr

/-- Result of running a handler: the new React state and the list of API
calls it issued, in order. -/
structure HandlerResult where
  state : ChatState
  calls : List ApiCall
deriving DecidableEq, Repr

/-- Models JavaScript String.prototype.trim (strip leading and trailing
whitespace), written over the character list so it evaluates by reduction. -/
def jsTrim (s : String) : String :=
  String.mk (((s.data.dropWhile Char.isWhitespace).reverse.dropWhile
    Char.isWhitespace).reverse)

/-- The optimistic user message appended by handleSend. -/
def userMessage (q : String) : Message :=
  { role := Role.user, content := q }

/-- The synthetic assistant message appended by the catch clause of
handleSend. -/
def sendErrorMessage : Message :=
  { role := Role.assistant, content := "Sorry, something went wrong. Please try again." }

/-- Mirrors handleNewChat of ChatPage: the unconditional reset. -/
def handleNewChat (s : ChatState) : ChatState :=
  { s with
    activeConversationId := none
    messages := []
    activeMode := Mode.global
    contextMode := ContextMode.rag
    activeDocumentIds := [] }

/-- Mirrors handleModeToggle of ChatPage. -/
def handleModeToggle (s : ChatState) : ChatState :=
  if s.activeMode = Mode.global then
    { s with activeMode := Mode.documents, pickerOpen := true }
  else
    { s with
      activeMode := Mode.global
      contextMode := ContextMode.rag
      activeDocumentIds := []
      activeConversationId := none
      messages := [] }

/-- Mirrors handleDocumentsConfirmed of ChatPage.  createResult is the
outcome of the createConversation call when it is issued (none models a
thrown error, some id a created conversation); fetchResult is the outcome
of the loadConversations refresh (none models a silently swallowed
failure); assocOk is the outcome of setConversationDocuments, whose
failure is caught and only logged, so it does not influence the result. -/
def handleDocumentsConfirmed (s : ChatState) (docIds : List String)
    (createResult : Option String) (fetchResult : Option (List ConversationItem))
    (assocOk : Bool) : HandlerResult :=
  let s1 := { s with pickerOpen := false, activeDocumentIds := docIds }
  if docIds = [] then
    { state := { s1 with activeMode := Mode.global }, calls := [] }
  else
    if optStrFalsy s.activeConversationId = true ∨ s.activeMode ≠ Mode.documents then
      match createResult with
      | none =>
        { state := s1,
          calls := [ApiCall.createConversation none Mode.documents s.contextMode] }
      | some newId =>
        { state := { s1 with
            activeConversationId := some newId
            messages := []
            conversations := fetchResult.getD s1.conversations },
          calls := [ApiCall.createConversation none Mode.documents s.contextMode,
                    ApiCall.fetchConversations,
                    ApiCall.setConversationDocuments newId docIds] }
    else
      match s.activeConversationId with
      | some convId =>
        { state := s1, calls := [ApiCall.setConversationDocuments convId docIds] }
      | none =>
        -- unreachable: the else branch requires a truthy activeConversationId
        { state := s1, calls := [] }

/-- Mirrors handleContextModeToggle of ChatPage: the local context mode is
set first; the persistence call is issued only when a conversation id is
bound (JavaScript truthiness), and its outcome updateOk is swallowed by
the catch clause, so it does not influence the result. -/
def handleContextModeToggle (s : ChatState) (mode : ContextMode)
    (updateOk : Bool) : HandlerResult :=
  let s1 := { s with contextMode := mode }
  match s.activeConversationId with
  | some convId =>
    if convId = "" then { state := s1, calls := [] }
    else { state := s1, calls := [ApiCall.updateContextMode convId mode] }
  | none => { state := s1, calls := [] }

/-- The rendering condition of the context-mode toggle (and of the Manage
Sources button) in ChatPage: activeMode is documents and
activeDocumentIds.length is positive. -/
def contextToggleRendered (s : ChatState) : Prop :=
  s.activeMode = Mode.documents ∧ 0 < s.activeDocumentIds.length

/-- The tail of handleSend once a conversation id convId is available:
issue sendConversationMessage; on success replace the optimistic entry
(the last message) by the returned slice and refresh the conversation
list; on failure append the synthetic assistant error.  The loading flag
is cleared by the finally clause on every path. -/
def sendPhase (s : ChatState) (convId q : String) (callsBefore : List ApiCall)
    (sendResult : Option (List Message))
    (fetchResult : Option (List ConversationItem)) : HandlerResult :=
  match sendResult with
  | none =>
    { state := { s with messages := s.messages ++ [sendErrorMessage], loading := false },
      calls := callsBefore ++ [ApiCall.sendConversationMessage convId q] }
  | some data =>
    let s1 := { s with messages := s.messages.dropLast ++ data }
    let s2 := { s1 with conversations := fetchResult.getD s1.conversations }
    { state := { s2 with loading := false },
      calls := callsBefore ++ [ApiCall.sendConversationMessage convId q,
                               ApiCall.fetchConversations] }

/-- Mirrors handleSend of ChatPage.  The oracles give the outcomes of the
network calls in the order they may be issued: createResult for
createConversation (none models a thrown error), assocOk for the
setConversationDocuments call issued for a fresh documents conversation
(false models a thrown error, caught by the outer catch), sendResult for
sendConversationMessage, fetchResult for the loadConversations refresh
(its failure is swallowed inside loadConversations). -/
def handleSend (s : ChatState) (createResult : Option String) (assocOk : Bool)
    (sendResult : Option (List Message))
    (fetchResult : Option (List ConversationItem)) : HandlerResult :=
  let q := jsTrim s.input
  if q = "" ∨ s.loading = true then { state := s, calls := [] }
  else
    let s1 := { s with
                input := ""
                messages := s.messages ++ [userMessage q]
                loading := true }
    if optStrFalsy s.activeConversationId = true then
      match createResult with
      | none =>
        { state := { s1 with
            messages := s1.messages ++ [sendErrorMessage]
            loading := false },
          calls := [ApiCall.createConversation none s.activeMode s.contextMode] }
      | some newId =>
        let s2 := { s1 with activeConversationId := some newId }
        if s.activeMode = Mode.documents ∧ 0 < s.activeDocumentIds.length then
          if assocOk then
            sendPhase s2 newId q
              [ApiCall.createConversation none s.activeMode s.contextMode,
               ApiCall.setConversationDocuments newId s.activeDocumentIds]
              sendResult fetchResult
          else
            { state := { s2 with
                messages := s2.messages ++ [sendErrorMessage]
                loading := false },
              calls := [ApiCall.createConversation none s.activeMode s.contextMode,
                        ApiCall.setConversationDocuments newId s.activeDocumentIds] }
        else
          sendPhase s2 newId q
            [ApiCall.createConversation none s.activeMode s.contextMode]
            sendResult fetchResult
    else
      match s.activeConversationId with
      | some convId => sendPhase s1 convId q [] sendResult fetchResult
      | none =>
        -- unreachable: a falsy activeConversationId was handled above
        { state := s1, calls := [] }

/-! Concrete fixtures used by counterexamples and witnesses. -/

/-- A concrete catalog document. -/
def d1rec : LibraryDocument :=
  { id := "d1", filename := "report.pdf", original_filename := "report.pdf",
    content_type := "application/pdf", file_size := 10, created_at := "2024-01-01" }

/-- A one-folder library containing d1rec. -/
def lib0 : LibraryResponse :=
  { folders := [LibraryFolder.mk "f1" "Papers" none [d1rec] [] [] []],
    root_documents := [] }

/-- A bookmarked paper with neither a retrievable PDF reference nor a
locally stored PDF. -/
def p0 : LibraryPaper :=
  { paper_id := "p0", title := "An Unavailable Paper", pdf_url := none,
    arxiv_id := none, source := none, has_local_pdf := false,
    document_id := none, folder_id := "f1" }

/-- A bookmarked repository. -/
def r0 : LibraryRepo :=
  { repo_id := "r0", full_name := "octo/demo", description := none,
    html_url := "https://example.org/octo/demo", stars_count := 3,
    primary_language := some "TypeScript", has_local_doc := false,
    document_id := none, folder_id := "f1" }

/-- A failed embedding outcome for the given document id. -/
def failedOutcome (id : String) : EmbedStatusItem :=
  { document_id := id, status := "failed", chunk_count := 0,
    error_message := some "embedding failed" }

/-- A completed embedding outcome for the given document id. -/
def completedOutcome (id : String) : EmbedStatusItem :=
  { document_id := id, status := "completed", chunk_count := 4,
    error_message := none }

/-- A still-processing embedding outcome for the given document id. -/
def processingOutcome (id : String) : EmbedStatusItem :=
  { document_id := id, status := "processing", chunk_count := 0,
    error_message := none }

/-- Merged outcomes where every item failed. -/
def rsAllFailed : List EmbedStatusItem := [failedOutcome "d1", failedOutcome "d2"]

/-- Merged outcomes with one completed item among failed and processing
ones. -/
def rsMixed : List EmbedStatusItem :=
  [completedOutcome "d1", failedOutcome "d2", processingOutcome "d3"]

/-- Merged outcomes where every item is still processing. -/
def rsProcessing : List EmbedStatusItem := [processingOutcome "d1"]

/-- A controller state with an open documents-mode conversation using full
context and the picker open (as after Manage Sources). -/
def docsFullContextState : ChatState :=
  { conversations := [], activeConversationId := some "c1",
    activeMode := Mode.documents, contextMode := ContextMode.full_context,
    activeDocumentIds := ["d1"], messages := [], input := "",
    loading := false, pickerOpen := true }

/-- A controller state in the selection flow with no conversation bound. -/
def selectingState : ChatState :=
  { conversations := [], activeConversationId := none,
    activeMode := Mode.documents, contextMode := ContextMode.rag,
    activeDocumentIds := [], messages := [], input := "",
    loading := false, pickerOpen := true }

/-- A controller state with a send outstanding and a second question
already typed. -/
def loadingState : ChatState :=
  { conversations := [], activeConversationId := some "c1",
    activeMode := Mode.global, contextMode := ContextMode.rag,
    activeDocumentIds := [], messages := [userMessage "first question"],
    input := "second question", loading := true, pickerOpen := false }

/-- A quiescent controller state with a bound conversation and a typed
question. -/
def readyState : ChatState :=
  { conversations := [], activeConversationId := some "c1",
    activeMode := Mode.global, contextMode := ContextMode.rag,
    activeDocumentIds := [], messages := [], input := "hi",
    loading := false, pickerOpen := false }

/-! Lemmas about the JavaScript Map model. -/

theorem mapHas_append (m l : SelMap) (k : String) :
    mapHas (m ++ l) k = (mapHas m k || mapHas l k) := by
  simp [mapHas]

theorem mapHas_mapDelete_self (m : SelMap) (k : String) :
    mapHas (mapDelete m k) k = false := by
  simp only [mapHas, mapDelete, List.any_eq_false]
  intro e he
  rw [List.mem_filter] at he
  simpa using he.2

theorem mapDelete_of_not_has (m : SelMap) (k : String) (h : mapHas m k = false) :
    mapDelete m k = m := by
  rw [mapHas, List.any_eq_false] at h
  rw [mapDelete, List.filter_eq_self]
  intro e he
  simpa using h e he

theorem mapDelete_append (m l : SelMap) (k : String) :
    mapDelete (m ++ l) k = mapDelete m k ++ mapDelete l k := by
  simp [mapDelete]

theorem mapSet_of_not_has (m : SelMap) (k : String) (v : SelectedItem)
    (h : mapHas m k = false) : mapSet m k v = m ++ [(k, v)] := by
  rw [mapSet, if_neg]
  simp [h]

theorem mapGet?_mapDelete_ne (m : SelMap) (k k1 : String) (h : k1 ≠ k) :
    mapGet? (mapDelete m k) k1 = mapGet? m k1 := by
  induction m with
  | nil => rfl
  | cons e m ih =>
    unfold mapGet? mapDelete at ih ⊢
    rw [List.filter_cons]
    by_cases hek : e.1 = k
    · have h2 : (e.1 == k1) = false := by
        rw [hek, beq_eq_false_iff_ne]
        exact Ne.symm h
      rw [if_neg (by simp [hek])]
      conv_rhs => rw [List.find?_cons]
      rw [h2]
      exact ih
    · by_cases he1 : (e.1 == k1) = true
      · rw [if_pos (by simp [hek])]
        simp only [List.find?_cons, he1]
      · have h2 : (e.1 == k1) = false := by simpa using he1
        rw [if_pos (by simp [hek])]
        simp only [List.find?_cons, h2]
        exact ih

theorem mapGet?_append_single_ne (m : SelMap) (k k1 : String) (v : SelectedItem)
    (h : k1 ≠ k) : mapGet? (m ++ [(k, v)]) k1 = mapGet? m k1 := by
  rw [mapGet?, mapGet?, List.find?_append]
  have hnone : ([(k, v)].find? (fun e => e.1 == k1)) = none := by
    rw [List.find?_eq_none]
    intro x hx
    rw [List.mem_singleton] at hx
    subst hx
    simp only [beq_iff_eq]
    exact fun hh => h hh.symm
  rw [hnone, Option.or_none]

theorem togglePair_twice_of_not_has (s : SelMap) (k : String) (v : SelectedItem)
    (h : mapHas s k = false) :
    togglePair (togglePair s k v) k v = s := by
  have h1 : togglePair s k v = s ++ [(k, v)] := by
    rw [togglePair, if_neg (by simp [h]), mapSet_of_not_has s k v h]
  have h2 : mapHas (s ++ [(k, v)]) k = true := by
    rw [mapHas_append]
    simp [mapHas]
  rw [h1, togglePair, if_pos h2, mapDelete_append, mapDelete_of_not_has s k h]
  simp [mapDelete]

theorem togglePair_twice_has (s : SelMap) (k : String) (v : SelectedItem) :
    mapHas (togglePair (togglePair s k v) k v) k = mapHas s k := by
  by_cases h : mapHas s k = true
  · have hinner : togglePair s k v = mapDelete s k := by
      rw [togglePair, if_pos h]
    have hd : mapHas (mapDelete s k) k = false := mapHas_mapDelete_self s k
    have houter : togglePair (mapDelete s k) k v = mapDelete s k ++ [(k, v)] := by
      rw [togglePair, if_neg (by simp [hd]), mapSet_of_not_has _ k v hd]
    rw [hinner, houter, mapHas_append, h]
    simp [mapHas]
  · have h0 : mapHas s k = false := by simpa using h
    rw [togglePair_twice_of_not_has s k v h0]

theorem togglePair_twice_get_ne (s : SelMap) (k : String) (v : SelectedItem)
    (k1 : String) (h : k1 ≠ k) :
    mapGet? (togglePair (togglePair s k v) k v) k1 = mapGet? s k1 := by
  by_cases hs : mapHas s k = true
  · have hinner : togglePair s k v = mapDelete s k := by
      rw [togglePair, if_pos hs]
    have hd : mapHas (mapDelete s k) k = false := mapHas_mapDelete_self s k
    have houter : togglePair (mapDelete s k) k v = mapDelete s k ++ [(k, v)] := by
      rw [togglePair, if_neg (by simp [hd]), mapSet_of_not_has _ k v hd]
    rw [hinner, houter, mapGet?_append_single_ne _ k k1 v h]
    exact mapGet?_mapDelete_ne s k k1 h
  · rw [togglePair_twice_of_not_has s k v (by simpa using hs)]

/-! Claim theorems. -/

/-- Claim C1 is false on the code as stated: the paper p0 has neither a
retrievable PDF reference (pdf_url is null) nor a locally stored PDF, yet
a single data-layer togglePaper call inserts it into the Selection Set;
the rejection exists only in the UI checkbox. -/
theorem c1_counterexample_no_pdf_paper_enters_selection :
    p0.pdf_url = none ∧ p0.has_local_pdf = false ∧
    mapHas (togglePaper p0 []) ("paper:" ++ p0.paper_id) = true := by
  refine ⟨rfl, rfl, ?_⟩
  decide

/-- Claim C1 (amended): the missing-PDF precondition is enforced only at
the UI layer: for a paper with neither a retrievable PDF reference nor a
local PDF the checkbox is rendered disabled, while the data-layer
togglePaper performs no such check and inserts the paper whenever it is
not already selected. -/
theorem c1_amended_no_pdf_guard_is_ui_only (p : LibraryPaper) (s : SelMap)
    (hurl : optStrFalsy p.pdf_url = true) (hloc : p.has_local_pdf = false) :
    paperCheckboxDisabled p = true ∧
    (mapHas s ("paper:" ++ p.paper_id) = false →
      mapHas (togglePaper p s) ("paper:" ++ p.paper_id) = true) := by
  constructor
  · rw [paperCheckboxDisabled, hurl, hloc]
    rfl
  · intro hmem
    rw [togglePaper, togglePair, if_neg (by simp [hmem]),
        mapSet_of_not_has _ _ _ hmem, mapHas_append]
    simp [mapHas]

/-- Witness for the amended claim C1 at the concrete paper p0. -/
theorem c1_amended_witness :
    paperCheckboxDisabled p0 = true ∧
    mapHas (togglePaper p0 []) ("paper:" ++ p0.paper_id) = true :=
  ⟨(c1_amended_no_pdf_guard_is_ui_only p0 [] rfl rfl).1,
   (c1_amended_no_pdf_guard_is_ui_only p0 [] rfl rfl).2 rfl⟩

/-- Claim C2: when the merged per-item outcomes are non-empty and every
outcome has status failed, handleConfirm surfaces the single aggregate
error, does not invoke onConfirm (no ready ids are handed back), and
clears the embedding flag. -/
theorem c2_all_failed_total_failure (rs : List EmbedStatusItem)
    (hne : rs ≠ []) (hall : ∀ r ∈ rs, r.status = "failed") :
    handleConfirm rs =
      { error := some "All items failed to embed", embedding := false,
        confirmedIds := none } := by
  have hfilter : rs.filter (fun r => r.status == "failed") = rs :=
    List.filter_eq_self.mpr (fun r hr => by simp [hall r hr])
  unfold handleConfirm
  simp only [hfilter]
  rw [if_pos ⟨List.length_pos.mpr hne, trivial⟩]

/-- Witness for claim C2 on a concrete two-item all-failed submission. -/
theorem c2_witness :
    handleConfirm rsAllFailed =
      { error := some "All items failed to embed", embedding := false,
        confirmedIds := none } :=
  c2_all_failed_total_failure rsAllFailed (by decide) (by decide)

/-- Claim C9 is false on the code as stated: starting from the selection
restored from initialDocumentIds (whose entry carries the raw id as its
label), toggling doc d1 off and then on rebuilds the entry from the
library catalog with a different label, so the Selection Set does not
return to its prior state. -/
theorem c9_counterexample_double_toggle_changes_state :
    (mapGet? (initialSelection ["d1"]) "doc:d1").map SelectedItem.label
        = some "d1" ∧
    (mapGet? (toggleDoc (some lib0) "d1" (toggleDoc (some lib0) "d1"
        (initialSelection ["d1"]))) "doc:d1").map SelectedItem.label
        = some "report.pdf" ∧
    toggleDoc (some lib0) "d1" (toggleDoc (some lib0) "d1"
        (initialSelection ["d1"])) ≠ initialSelection ["d1"] := by
  decide

/-- Claim C9 (amended): for each of the three kinds, a double toggle of
the same key restores membership of that key, leaves the entry stored at
every other key unchanged, and when the toggled key was absent restores
the Selection Set exactly; the entry re-inserted for a previously present
key, however, is rebuilt from the catalog, so its stored metadata may
differ from the prior entry. -/
theorem c9_amended_double_toggle_membership (library : Option LibraryResponse)
    (s : SelMap) (id : String) (p : LibraryPaper) (r : LibraryRepo) :
    (mapHas (toggleDoc library id (toggleDoc library id s)) ("doc:" ++ id)
        = mapHas s ("doc:" ++ id) ∧
      (∀ k, k ≠ "doc:" ++ id →
        mapGet? (toggleDoc library id (toggleDoc library id s)) k = mapGet? s k) ∧
      (mapHas s ("doc:" ++ id) = false →
        toggleDoc library id (toggleDoc library id s) = s)) ∧
    (mapHas (togglePaper p (togglePaper p s)) ("paper:" ++ p.paper_id)
        = mapHas s ("paper:" ++ p.paper_id) ∧
      (∀ k, k ≠ "paper:" ++ p.paper_id →
        mapGet? (togglePaper p (togglePaper p s)) k = mapGet? s k) ∧
      (mapHas s ("paper:" ++ p.paper_id) = false →
        togglePaper p (togglePaper p s) = s)) ∧
    (mapHas (toggleRepo r (toggleRepo r s)) ("repo:" ++ r.repo_id)
        = mapHas s ("repo:" ++ r.repo_id) ∧
      (∀ k, k ≠ "repo:" ++ r.repo_id →
        mapGet? (toggleRepo r (toggleRepo r s)) k = mapGet? s k) ∧
      (mapHas s ("repo:" ++ r.repo_id) = false →
        toggleRepo r (toggleRepo r s) = s)) :=
  ⟨⟨togglePair_twice_has s ("doc:" ++ id) (docItem library id),
    fun k hk => togglePair_twice_get_ne s ("doc:" ++ id) (docItem library id) k hk,
    fun h => togglePair_twice_of_not_has s ("doc:" ++ id) (docItem library id) h⟩,
   ⟨togglePair_twice_has s ("paper:" ++ p.paper_id) _,
    fun k hk => togglePair_twice_get_ne s ("paper:" ++ p.paper_id) _ k hk,
    fun h => togglePair_twice_of_not_has s ("paper:" ++ p.paper_id) _ h⟩,
   ⟨togglePair_twice_has s ("repo:" ++ r.repo_id) _,
    fun k hk => togglePair_twice_get_ne s ("repo:" ++ r.repo_id) _ k hk,
    fun h => togglePair_twice_of_not_has s ("repo:" ++ r.repo_id) _ h⟩⟩

/-- Witness for the amended claim C9: double-toggling a key absent from
the empty selection restores the empty selection exactly. -/
theorem c9_amended_witness :
    toggleDoc (some lib0) "dX" (toggleDoc (some lib0) "dX" []) = [] :=
  ((c9_amended_double_toggle_membership (some lib0) [] "dX" p0 r0).1).2.2 rfl

/-- Claim C3: when at least one merged outcome has status completed,
handleConfirm raises no aggregate error, clears the embedding flag, and
invokes onConfirm with exactly the document ids whose outcome status is
completed: the ready list is the completed filter, and an id is in it
precisely when some outcome carries it with status completed. -/
theorem c3_partial_success_ready_ids (rs : List EmbedStatusItem)
    (hex : ∃ r ∈ rs, r.status = "completed") :
    (handleConfirm rs).error = none ∧ (handleConfirm rs).embedding = false ∧
    (handleConfirm rs).confirmedIds =
      some ((rs.filter (fun r => r.status == "completed")).map
        (fun r => r.document_id)) ∧
    (∀ x, x ∈ (rs.filter (fun r => r.status == "completed")).map
        (fun r => r.document_id) ↔
      ∃ r ∈ rs, r.status = "completed" ∧ r.document_id = x) := by
  obtain ⟨r, hr, hc⟩ := hex
  have hcond : ¬(0 < (rs.filter (fun r => r.status == "failed")).length ∧
      (rs.filter (fun r => r.status == "failed")).length = rs.length) := by
    rintro ⟨-, hlen⟩
    have hfail := List.filter_length_eq_length.mp hlen r hr
    rw [hc] at hfail
    simp at hfail
  have hout : handleConfirm rs =
      { error := none, embedding := false,
        confirmedIds := some ((rs.filter
          (fun r => r.status == "completed")).map (fun r => r.document_id)) } := by
    unfold handleConfirm
    rw [if_neg hcond]
  refine ⟨by rw [hout], by rw [hout], by rw [hout], ?_⟩
  intro x
  simp only [List.mem_map, List.mem_filter, beq_iff_eq]
  constructor
  · rintro ⟨a, ⟨ha, hs⟩, hx⟩
    exact ⟨a, ha, hs, hx⟩
  · rintro ⟨a, ha, hs, hx⟩
    exact ⟨a, ⟨ha, hs⟩, hx⟩

/-- Witness for claim C3 on a concrete mixed submission with one completed
item out of three. -/
theorem c3_witness :
    (handleConfirm rsMixed).error = none ∧
    (handleConfirm rsMixed).confirmedIds = some ["d1"] := by
  have h := c3_partial_success_ready_ids rsMixed
    ⟨completedOutcome "d1", by decide, rfl⟩
  refine ⟨h.1, ?_⟩
  rw [h.2.2.1]
  decide

/-- Claim C4: confirming the selection with a non-empty ready-id list
creates a documents-mode conversation carrying the current context
preference and binds it as active before issuing the association call
when no documents-mode conversation is currently active, and skips
creation and only issues the association call when one already is. -/
theorem c4_confirm_nonempty_creates_or_associates (s : ChatState)
    (docIds : List String) (newId : String)
    (fetchResult : Option (List ConversationItem)) (assocOk : Bool)
    (hne : docIds ≠ []) :
    ((optStrFalsy s.activeConversationId = true ∨ s.activeMode ≠ Mode.documents) →
      handleDocumentsConfirmed s docIds (some newId) fetchResult assocOk =
        { state := { s with
            pickerOpen := false
            activeDocumentIds := docIds
            activeConversationId := some newId
            messages := []
            conversations := fetchResult.getD s.conversations },
          calls := [ApiCall.createConversation none Mode.documents s.contextMode,
                    ApiCall.fetchConversations,
                    ApiCall.setConversationDocuments newId docIds] }) ∧
    (∀ c, s.activeConversationId = some c → c ≠ "" → s.activeMode = Mode.documents →
      handleDocumentsConfirmed s docIds (some newId) fetchResult assocOk =
        { state := { s with pickerOpen := false, activeDocumentIds := docIds },
          calls := [ApiCall.setConversationDocuments c docIds] }) := by
  constructor
  · intro hcreate
    unfold handleDocumentsConfirmed
    rw [if_neg hne, if_pos hcreate]
  · intro c hc hcne hmode
    unfold handleDocumentsConfirmed
    rw [if_neg hne, if_neg (by
      rintro (h1 | h2)
      · rw [hc] at h1
        simp only [optStrFalsy, beq_iff_eq] at h1
        exact hcne h1
      · exact h2 hmode)]
    simp only [hc]

/-- Witness for claim C4: from the selection flow with no bound
conversation, confirming with one ready id creates and binds a documents
conversation and then associates the id. -/
theorem c4_witness :
    handleDocumentsConfirmed selectingState ["d1"] (some "c9") none true =
      { state := { selectingState with
          pickerOpen := false
          activeDocumentIds := ["d1"]
          activeConversationId := some "c9"
          messages := []
          conversations := [] },
        calls := [ApiCall.createConversation none Mode.documents
                    selectingState.contextMode,
                  ApiCall.fetchConversations,
                  ApiCall.setConversationDocuments "c9" ["d1"]] } :=
  (c4_confirm_nonempty_creates_or_associates selectingState ["d1"] "c9" none true
    (by decide)).1 (Or.inl rfl)

/-- Claim C5 is false on the code as stated: from a documents-mode state
with a bound conversation and full-context strategy, confirming with an
empty ready-id list does set the mode to global and empty the attached id
set, but it leaves context_mode at full_context (not rag) and keeps the
conversation id bound (not cleared), so the controller does not revert to
the full Idle(global) state. -/
theorem c5_counterexample_empty_confirm_keeps_binding :
    (handleDocumentsConfirmed docsFullContextState [] none none true).state.activeMode
        = Mode.global ∧
    (handleDocumentsConfirmed docsFullContextState [] none none true).state.activeDocumentIds
        = [] ∧
    (handleDocumentsConfirmed docsFullContextState [] none none true).state.contextMode
        = ContextMode.full_context ∧
    (handleDocumentsConfirmed docsFullContextState [] none none true).state.contextMode
        ≠ ContextMode.rag ∧
    (handleDocumentsConfirmed docsFullContextState [] none none true).state.activeConversationId
        = some "c1" ∧
    (handleDocumentsConfirmed docsFullContextState [] none none true).state.activeConversationId
        ≠ none := by
  decide

/-- Claim C5 (amended): confirming the selection with an empty ready-id
list closes the picker, empties the attached id set and reverts the mode
to global, issuing no calls, but leaves the context strategy, the bound
conversation id, the transcript and the conversation list unchanged. -/
theorem c5_amended_empty_confirm_partial_reset (s : ChatState)
    (createResult : Option String) (fetchResult : Option (List ConversationItem))
    (assocOk : Bool) :
    handleDocumentsConfirmed s [] createResult fetchResult assocOk =
      { state := { s with
          pickerOpen := false
          activeDocumentIds := []
          activeMode := Mode.global },
        calls := [] } := rfl

/-- Claim C10: merged outcomes that are non-empty but contain neither a
failed nor a completed item produce no aggregate error and an empty ready
list handed to onConfirm, and the controller then treats that empty list
as a cancellation: it reverts the mode to global with an empty attached
set without issuing any call. -/
theorem c10_all_processing_silent_cancel (rs : List EmbedStatusItem)
    (s : ChatState) (cr : Option String) (fr : Option (List ConversationItem))
    (ao : Bool) (hne : rs ≠ []) (hnf : ∀ r ∈ rs, r.status ≠ "failed")
    (hnc : ∀ r ∈ rs, r.status ≠ "completed") :
    handleConfirm rs =
      { error := none, embedding := false, confirmedIds := some [] } ∧
    (handleDocumentsConfirmed s [] cr fr ao).state.activeMode = Mode.global ∧
    (handleDocumentsConfirmed s [] cr fr ao).state.activeDocumentIds = [] ∧
    (handleDocumentsConfirmed s [] cr fr ao).calls = [] := by
  refine ⟨?_, rfl, rfl, rfl⟩
  have hf : rs.filter (fun r => r.status == "failed") = [] :=
    List.filter_eq_nil_iff.mpr (fun r hr => by simp [hnf r hr])
  have hc : rs.filter (fun r => r.status == "completed") = [] :=
    List.filter_eq_nil_iff.mpr (fun r hr => by simp [hnc r hr])
  unfold handleConfirm
  rw [hf, hc]
  rw [if_neg (by rintro ⟨h1, -⟩; simp at h1)]
  rfl

/-- Witness for claim C10 on a concrete all-processing submission and a
concrete documents-mode controller state. -/
theorem c10_witness :
    handleConfirm rsProcessing =
      { error := none, embedding := false, confirmedIds := some [] } ∧
    (handleDocumentsConfirmed docsFullContextState [] none none true).state.activeMode
        = Mode.global := by
  have h := c10_all_processing_silent_cancel rsProcessing docsFullContextState
    none none true (by decide) (by decide) (by decide)
  exact ⟨h.1, h.2.1⟩

/-- Claim C6: on every failing path of handleSend (conversation creation
throwing, the fresh-conversation association throwing, or the send call
throwing) the final transcript is exactly the prior transcript followed by
the retained optimistic user message and one synthetic assistant failure
notice: nothing is rolled back, removed or duplicated. -/
theorem c6_send_failure_appends_error (s : ChatState) (cr : Option String)
    (ao : Bool) (fr : Option (List ConversationItem))
    (hl : s.loading = false) (hq : jsTrim s.input ≠ "") :
    ((handleSend s cr ao none fr).state.messages
        = s.messages ++ [userMessage (jsTrim s.input), sendErrorMessage]) ∧
    (optStrFalsy s.activeConversationId = true →
      ∀ sr, (handleSend s none ao sr fr).state.messages
        = s.messages ++ [userMessage (jsTrim s.input), sendErrorMessage]) ∧
    (optStrFalsy s.activeConversationId = true → s.activeMode = Mode.documents →
      0 < s.activeDocumentIds.length →
      ∀ newId sr, (handleSend s (some newId) false sr fr).state.messages
        = s.messages ++ [userMessage (jsTrim s.input), sendErrorMessage]) := by
  have hcond : ¬(jsTrim s.input = "" ∨ s.loading = true) := by
    rintro (h | h)
    · exact hq h
    · rw [hl] at h
      cases h
  refine ⟨?_, ?_, ?_⟩
  · simp only [handleSend]
    rw [if_neg hcond]
    by_cases hfal : optStrFalsy s.activeConversationId = true
    · rw [if_pos hfal]
      cases cr with
      | none => simp
      | some newId =>
        cases ao with
        | true =>
          by_cases hmode : s.activeMode = Mode.documents ∧ 0 < s.activeDocumentIds.length
          · simp [hmode, sendPhase]
          · simp [hmode, sendPhase]
        | false =>
          by_cases hmode : s.activeMode = Mode.documents ∧ 0 < s.activeDocumentIds.length
          · simp [hmode]
          · simp [hmode, sendPhase]
    · rw [if_neg hfal]
      cases hid : s.activeConversationId with
      | none =>
        rw [hid] at hfal
        exact absurd rfl hfal
      | some c =>
        simp only [hid]
        simp [sendPhase]
  · intro hfal sr
    simp only [handleSend]
    rw [if_neg hcond, if_pos hfal]
    simp
  · intro hfal hmode hlen newId sr
    simp only [handleSend]
    rw [if_neg hcond, if_pos hfal]
    rw [if_pos ⟨hmode, hlen⟩]
    simp

/-- Witness for claim C6: a concrete failing send against a bound
conversation retains the optimistic user message and appends one
assistant error. -/
theorem c6_witness :
    (handleSend readyState none true none none).state.messages =
      readyState.messages ++ [userMessage (jsTrim readyState.input),
        sendErrorMessage] :=
  (c6_send_failure_appends_error readyState none true none rfl (by decide)).1

/-- Claim C7: while a send is outstanding (the loading flag is set), a
further handleSend invocation is a no-op: the state is unchanged (no
optimistic message is appended) and no network request is issued. -/
theorem c7_send_refused_while_loading (s : ChatState) (cr : Option String)
    (ao : Bool) (sr : Option (List Message)) (fr : Option (List ConversationItem))
    (h : s.loading = true) :
    handleSend s cr ao sr fr = { state := s, calls := [] } := by
  simp only [handleSend]
  rw [if_pos (Or.inr h)]

/-- Witness for claim C7 on a concrete state with a send outstanding. -/
theorem c7_witness :
    handleSend loadingState none true none none =
      { state := loadingState, calls := [] } :=
  c7_send_refused_while_loading loadingState none true none none rfl

/-- Claim C8: the context-mode toggle is rendered exactly while mode is
documents and the attached id set is non-empty; toggling updates the local
context mode optimistically, the result does not depend on the outcome of
the persistence call, and the updateContextMode call is issued precisely
for a bound (truthy) conversation id. -/
theorem c8_context_toggle_optimistic_and_guarded (s : ChatState)
    (m : ContextMode) (ok : Bool) :
    (contextToggleRendered s ↔
      (s.activeMode = Mode.documents ∧ s.activeDocumentIds ≠ [])) ∧
    (handleContextModeToggle s m ok).state = { s with contextMode := m } ∧
    handleContextModeToggle s m ok = handleContextModeToggle s m (!ok) ∧
    (∀ c, s.activeConversationId = some c → c ≠ "" →
      (handleContextModeToggle s m ok).calls = [ApiCall.updateContextMode c m]) ∧
    (s.activeConversationId = none →
      (handleContextModeToggle s m ok).calls = []) := by
  refine ⟨?_, ?_, rfl, ?_, ?_⟩
  · unfold contextToggleRendered
    constructor
    · rintro ⟨h1, h2⟩
      exact ⟨h1, List.length_pos.mp h2⟩
    · rintro ⟨h1, h2⟩
      exact ⟨h1, List.length_pos.mpr h2⟩
  · cases hid : s.activeConversationId with
    | none => simp [handleContextModeToggle, hid]
    | some c =>
      by_cases hc : c = ""
      · simp [handleContextModeToggle, hid, hc]
      · simp [handleContextModeToggle, hid, hc]
  · intro c hc hcne
    simp [handleContextModeToggle, hc, hcne]
  · intro hc
    simp [handleContextModeToggle, hc]

/-- Witness for claim C8: toggling to full context with a bound
conversation issues exactly the persistence call for it. -/
theorem c8_witness :
    (handleContextModeToggle readyState ContextMode.full_context true).calls =
      [ApiCall.updateContextMode "c1" ContextMode.full_context] :=
  (c8_context_toggle_optimistic_and_guarded readyState ContextMode.full_context
    true).2.2.2.1 "c1" rfl (by decide)

end ResearchRover
